import Mathlib

/-!
Verification of the `poll_audience` session registry (src/main.rs).

The program is an in-memory "broadcast page / collect responses" store: a
presenter publishes page content under a session identifier, participants
submit responses keyed by user identifier, and a periodic sweep removes
stale sessions.  We embed the registry and its request handlers as pure
Lean functions: the two `HashMap`s become association lists, `Utc::now()`
becomes an explicit `now : Nat` parameter threaded into every mutating
handler, and a fallible handler returns `Except AppError` exactly where
the Rust handler returns `Result<_, AppError>`.  Rust's `String::len` is
the UTF-8 byte length, embedded as `String.utf8ByteSize`.
-/

namespace PollAudience

/-- The UTF-8 byte length of a string, the embedding of Rust `str::len`. -/
def byteLen (s : String) : Nat := s.utf8ByteSize

/-- The error enum of the application (src/main.rs, `enum AppError`). -/
inductive AppError : Type
  | EmptySessionID
  | TooLongSessionID
  | SessionIDDoesNotExist
  | ServerError
  | EmptyUserID
  | TooLongUserID
  | PageTooLarge
deriving DecidableEq, Repr

/-- Newtype over the session identifier string (src/main.rs, `struct SessionID`). -/
structure SessionID : Type where
  val : String
deriving DecidableEq, Repr

/-- `SessionID::from_string`: rejects the empty string and strings longer
than 100 bytes. -/
def SessionID.from_string (s : String) : Except AppError SessionID :=
  if s = "" then .error .EmptySessionID
  else if byteLen s > 100 then .error .TooLongSessionID
  else .ok ⟨s⟩

/-- Newtype over the user identifier string (src/main.rs, `struct UserID`). -/
structure UserID : Type where
  val : String
deriving DecidableEq, Repr

/-- `UserID::from_string`: rejects the empty string and strings longer
than 100 bytes. -/
def UserID.from_string (s : String) : Except AppError UserID :=
  if s = "" then .error .EmptyUserID
  else if byteLen s > 100 then .error .TooLongUserID
  else .ok ⟨s⟩

/-- Association-list lookup, embedding `HashMap::get`. -/
def mapLookup {κ α : Type} [DecidableEq κ] (k : κ) : List (κ × α) → Option α
  | [] => none
  | (k1, v) :: rest => if k1 = k then some v else mapLookup k rest

/-- Association-list insert-or-replace, embedding `HashMap::insert` and the
`entry(..).or_insert_with(..)`-then-mutate pattern. -/
def mapInsert {κ α : Type} [DecidableEq κ] (k : κ) (v : α) : List (κ × α) → List (κ × α)
  | [] => [(k, v)]
  | (k1, w) :: rest => if k1 = k then (k, v) :: rest else (k1, w) :: mapInsert k v rest

/-- The keys of an association list. -/
def mapKeys {κ α : Type} (l : List (κ × α)) : List κ := l.map Prod.fst

/-- Number of entries of an association list carrying a given key. -/
def countKey {κ α : Type} [DecidableEq κ] (k : κ) (l : List (κ × α)) : Nat :=
  (l.filter fun p => decide (p.1 = k)).length

/-- Per-session state (src/main.rs, `struct SessionState`): the page
content, the per-user response map, and the last-update timestamp. -/
structure SessionState : Type where
  page_content : String
  response_by_user : List (UserID × String)
  last_update : Nat
deriving DecidableEq, Repr

/-- The registry (src/main.rs, `struct Sessions`): the map from session id
to session state. -/
abbrev Sessions : Type := List (SessionID × SessionState)

/-- Handler `page_for_session` (GET /s/{session_id}): validates the id,
then returns the session's page content, or `SessionIDDoesNotExist`.
It performs no mutation, hence returns no new registry. -/
def page_for_session (sessions : Sessions) (path : String) : Except AppError String :=
  match SessionID.from_string path with
  | .error e => .error e
  | .ok session_id =>
    match mapLookup session_id sessions with
    | none => .error .SessionIDDoesNotExist
    | some session => .ok session.page_content

/-- Handler `set_page` (POST /s/{session_id}/set_page): rejects a body over
1,000,000 bytes, validates the id, then creates-or-updates the session with
the new page content, empty responses, and a fresh `last_update`. -/
def set_page (body : String) (path : String) (sessions : Sessions) (now : Nat) :
    Except AppError Sessions :=
  if byteLen body > 1000000 then .error .PageTooLarge
  else match SessionID.from_string path with
  | .error e => .error e
  | .ok session_id =>
    .ok (mapInsert session_id
      { page_content := body, response_by_user := [], last_update := now } sessions)

/-- Handler `reset` (POST /s/{session_id}/reset_responses): validates the
id; if the session exists its responses are cleared (page content and
`last_update` untouched); if not, the registry is returned unchanged. -/
def reset (path : String) (sessions : Sessions) : Except AppError Sessions :=
  match SessionID.from_string path with
  | .error e => .error e
  | .ok session_id =>
    match mapLookup session_id sessions with
    | none => .ok sessions
    | some session =>
      .ok (mapInsert session_id { session with response_by_user := [] } sessions)

/-- Handler `respond` (POST /s/{session_id}/respond/{user_id}): validates
both ids, fails with `SessionIDDoesNotExist` if the session is absent,
otherwise inserts-or-overwrites the user's response and refreshes
`last_update`.  Note: the handler itself performs no body-size check. -/
def respond (body : String) (session_path user_path : String) (sessions : Sessions)
    (now : Nat) : Except AppError Sessions :=
  match SessionID.from_string session_path with
  | .error e => .error e
  | .ok session_id =>
    match UserID.from_string user_path with
    | .error e => .error e
    | .ok user_id =>
      match mapLookup session_id sessions with
      | none => .error .SessionIDDoesNotExist
      | some session =>
        .ok (mapInsert session_id
          { session with
            response_by_user := mapInsert user_id body session.response_by_user,
            last_update := now } sessions)

/-- Handler `responses` (GET /s/{session_id}/responses): validates the id
and returns a read-only snapshot of the per-user response map. -/
def responses (sessions : Sessions) (path : String) :
    Except AppError (List (UserID × String)) :=
  match SessionID.from_string path with
  | .error e => .error e
  | .ok session_id =>
    match mapLookup session_id sessions with
    | none => .error .SessionIDDoesNotExist
    | some session => .ok session.response_by_user

/-- Handler `stats` (GET /stats): the number of live sessions. -/
def stats (sessions : Sessions) : Nat := sessions.length

/-- One pass of `periodically_clear_old_sessions`: retain exactly the
sessions with `¬ (now > last_update + ttl)`, i.e. drop those whose
`last_update + ttl < now`. -/
def expire_older_than (sessions : Sessions) (now ttl : Nat) : Sessions :=
  sessions.filter fun p => ! decide (now > p.2.last_update + ttl)

/-- A client-visible or maintenance request, used to describe reachable
registry states. -/
inductive Op : Type
  | setPage (path body : String) (now : Nat)
  | doRespond (path user body : String) (now : Nat)
  | resetResponses (path : String)
  | getPage (path : String)
  | getResponses (path : String)
  | countSessions
  | expire (now ttl : Nat)

/-- Apply one request to the registry.  A mutating handler that returns an
error leaves the registry as it was (the handler returned before touching
it); the read-only handlers never produce a new registry at all. -/
def applyOp (sessions : Sessions) : Op → Sessions
  | .setPage path body now =>
    match set_page body path sessions now with
    | .ok s => s
    | .error _ => sessions
  | .doRespond path user body now =>
    match respond body path user sessions now with
    | .ok s => s
    | .error _ => sessions
  | .resetResponses path =>
    match reset path sessions with
    | .ok s => s
    | .error _ => sessions
  | .getPage _ => sessions
  | .getResponses _ => sessions
  | .countSessions => sessions
  | .expire now ttl => expire_older_than sessions now ttl

/-- Registry states reachable from the empty registry by any sequence of
requests. -/
inductive Reachable : Sessions → Prop
  | empty : Reachable []
  | step {st : Sessions} (op : Op) : Reachable st → Reachable (applyOp st op)

/-- A string that is accepted as an identifier: non-empty and at most 100
UTF-8 bytes. -/
def validIdStr (s : String) : Prop := s ≠ "" ∧ byteLen s ≤ 100

/-- The registry invariant: every session key and every user key is a valid
identifier string, and every page content is at most 1,000,000 bytes. -/
def ValidState (st : Sessions) : Prop :=
  ∀ p ∈ st, validIdStr p.1.val ∧ byteLen p.2.page_content ≤ 1000000 ∧
    ∀ q ∈ p.2.response_by_user, validIdStr q.1.val

/-! ### Association-list lemmas -/

theorem mapLookup_mapInsert_self {κ α : Type} [DecidableEq κ] (k : κ) (v : α)
    (l : List (κ × α)) : mapLookup k (mapInsert k v l) = some v := by
  induction l with
  | nil => simp [mapInsert, mapLookup]
  | cons hd tl ih =>
    obtain ⟨k1, w⟩ := hd
    by_cases h : k1 = k
    · simp [mapInsert, h, mapLookup]
    · simp [mapInsert, h, mapLookup, ih]

theorem mapLookup_mapInsert_ne {κ α : Type} [DecidableEq κ] {k1 k : κ} (v : α)
    (l : List (κ × α)) (hne : k1 ≠ k) :
    mapLookup k1 (mapInsert k v l) = mapLookup k1 l := by
  have hne' : ¬ k = k1 := fun h => hne h.symm
  induction l with
  | nil => simp [mapInsert, mapLookup, hne']
  | cons hd tl ih =>
    obtain ⟨k2, w⟩ := hd
    by_cases h : k2 = k
    · subst h
      simp [mapInsert, mapLookup, hne']
    · simp [mapInsert, h, mapLookup, ih]

theorem mem_mapInsert {κ α : Type} [DecidableEq κ] {p : κ × α} {k : κ} {v : α}
    {l : List (κ × α)} (h : p ∈ mapInsert k v l) : p = (k, v) ∨ p ∈ l := by
  induction l with
  | nil => simpa [mapInsert] using h
  | cons hd tl ih =>
    obtain ⟨k1, w⟩ := hd
    simp only [mapInsert] at h
    by_cases hk : k1 = k
    · rw [if_pos hk] at h
      rcases List.mem_cons.mp h with h1 | h1
      · exact Or.inl h1
      · exact Or.inr (List.mem_cons_of_mem _ h1)
    · rw [if_neg hk] at h
      rcases List.mem_cons.mp h with h1 | h1
      · exact Or.inr (List.mem_cons.mpr (Or.inl h1))
      · rcases ih h1 with h2 | h2
        · exact Or.inl h2
        · exact Or.inr (List.mem_cons_of_mem _ h2)

theorem mapInsert_mapInsert_self {κ α : Type} [DecidableEq κ] (k : κ) (v w : α)
    (l : List (κ × α)) : mapInsert k v (mapInsert k w l) = mapInsert k v l := by
  induction l with
  | nil => simp [mapInsert]
  | cons hd tl ih =>
    obtain ⟨k1, u⟩ := hd
    by_cases h : k1 = k
    · simp [mapInsert, h]
    · simp [mapInsert, h, ih]

theorem mem_mapKeys_mapInsert {κ α : Type} [DecidableEq κ] {x k : κ} {v : α}
    {l : List (κ × α)} : x ∈ mapKeys (mapInsert k v l) ↔ x = k ∨ x ∈ mapKeys l := by
  induction l with
  | nil => simp [mapInsert, mapKeys]
  | cons hd tl ih =>
    obtain ⟨k1, w⟩ := hd
    simp only [mapKeys, List.map_cons] at ih ⊢
    by_cases h : k1 = k
    · subst h
      simp only [mapInsert, if_true, List.map_cons, List.mem_cons, eq_self_iff_true, ite_true]
      tauto
    · simp only [mapInsert, if_neg h, List.map_cons, List.mem_cons, ih]
      tauto

theorem nodup_mapKeys_mapInsert {κ α : Type} [DecidableEq κ] (k : κ) (v : α)
    {l : List (κ × α)} (h : (mapKeys l).Nodup) : (mapKeys (mapInsert k v l)).Nodup := by
  induction l with
  | nil => simp [mapInsert, mapKeys]
  | cons hd tl ih =>
    obtain ⟨k1, w⟩ := hd
    simp only [mapKeys, List.map_cons, List.nodup_cons] at h
    by_cases hk : k1 = k
    · subst hk
      simpa [mapInsert, mapKeys, List.nodup_cons] using h
    · simp only [mapInsert, if_neg hk, mapKeys, List.map_cons, List.nodup_cons]
      refine ⟨fun hmem => ?_, ih h.2⟩
      rcases mem_mapKeys_mapInsert.mp hmem with h1 | h1
      · exact hk h1
      · exact h.1 h1

theorem mapLookup_eq_none_of_not_mem_keys {κ α : Type} [DecidableEq κ] {k : κ}
    {l : List (κ × α)} (h : k ∉ mapKeys l) : mapLookup k l = none := by
  induction l with
  | nil => rfl
  | cons hd tl ih =>
    obtain ⟨k1, v⟩ := hd
    simp only [mapKeys, List.map_cons, List.mem_cons] at h
    push_neg at h
    have h1 : ¬ k1 = k := fun hh => h.1 hh.symm
    simp [mapLookup, h1]
    exact ih h.2

theorem countKey_eq_zero_of_not_mem_keys {κ α : Type} [DecidableEq κ] {k : κ}
    {l : List (κ × α)} (h : k ∉ mapKeys l) : countKey k l = 0 := by
  induction l with
  | nil => rfl
  | cons hd tl ih =>
    obtain ⟨k1, v⟩ := hd
    simp only [mapKeys, List.map_cons, List.mem_cons] at h
    push_neg at h
    have h1 : ¬ k1 = k := fun hh => h.1 hh.symm
    simp only [countKey, List.filter_cons]
    rw [if_neg (by simp [h1])]
    exact ih h.2

theorem countKey_mapInsert_self {κ α : Type} [DecidableEq κ] (k : κ) (v : α)
    {l : List (κ × α)} (h : (mapKeys l).Nodup) : countKey k (mapInsert k v l) = 1 := by
  induction l with
  | nil => simp [mapInsert, countKey, List.filter]
  | cons hd tl ih =>
    obtain ⟨k1, w⟩ := hd
    simp only [mapKeys, List.map_cons, List.nodup_cons] at h
    by_cases hk : k1 = k
    · subst hk
      have h0 : countKey k1 tl = 0 :=
        countKey_eq_zero_of_not_mem_keys (by simpa [mapKeys] using h.1)
      simp only [mapInsert, if_pos rfl, countKey, List.filter_cons]
      rw [if_pos (by simp)]
      simpa [countKey] using h0
    · simp only [mapInsert, if_neg hk, countKey, List.filter_cons]
      rw [if_neg (by simp [hk])]
      exact ih h.2

/-! ### Byte-length lemmas -/

theorem utf8ByteSize_go_replicate (n : Nat) (c : Char) :
    String.utf8ByteSize.go (List.replicate n c) = n * c.utf8Size := by
  induction n with
  | zero => simp [String.utf8ByteSize.go]
  | succ m ih =>
    simp only [List.replicate_succ, String.utf8ByteSize.go, ih, Nat.succ_mul]

theorem byteLen_mk_replicate (n : Nat) (c : Char) :
    byteLen (String.mk (List.replicate n c)) = n * c.utf8Size :=
  utf8ByteSize_go_replicate n c

theorem length_le_utf8ByteSize_go (cs : List Char) :
    cs.length ≤ String.utf8ByteSize.go cs := by
  induction cs with
  | nil => simp [String.utf8ByteSize.go]
  | cons c rest ih =>
    simp only [List.length_cons, String.utf8ByteSize.go]
    have := Char.utf8Size_pos c
    omega

theorem length_le_byteLen (s : String) : s.length ≤ byteLen s := by
  obtain ⟨cs⟩ := s
  exact length_le_utf8ByteSize_go cs

/-! ### Validation characterizations -/

theorem sessionID_from_string_eq_ok {s : String} (h1 : s ≠ "") (h2 : byteLen s ≤ 100) :
    SessionID.from_string s = .ok ⟨s⟩ := by
  have h3 : ¬ byteLen s > 100 := by omega
  simp [SessionID.from_string, h1, h3]

theorem userID_from_string_eq_ok {s : String} (h1 : s ≠ "") (h2 : byteLen s ≤ 100) :
    UserID.from_string s = .ok ⟨s⟩ := by
  have h3 : ¬ byteLen s > 100 := by omega
  simp [UserID.from_string, h1, h3]

theorem set_page_ok_inv {body path : String} {st st' : Sessions} {now : Nat}
    (h : set_page body path st now = .ok st') :
    byteLen body ≤ 1000000 ∧ ∃ sid, SessionID.from_string path = .ok sid ∧
      st' = mapInsert sid ⟨body, [], now⟩ st := by
  simp only [set_page] at h
  split at h
  · exact absurd h (by simp)
  · split at h
    next e he => exact absurd h (by simp)
    next sid hsid =>
      refine ⟨by omega, sid, hsid, ?_⟩
      cases h
      rfl

/-! ### Claims -/

/-- C1: for every valid SessionID string `s` (non-empty, at most 100 bytes)
and every content `c` of at most 1,000,000 bytes, `set_page` succeeds and a
following `page_for_session` returns exactly `c`. -/
theorem setPage_then_getPage (st : Sessions) (s c : String) (now : Nat)
    (h1 : s ≠ "") (h2 : byteLen s ≤ 100) (h3 : byteLen c ≤ 1000000) :
    ∃ st', set_page c s st now = .ok st' ∧ page_for_session st' s = .ok c := by
  have hsid := sessionID_from_string_eq_ok h1 h2
  have h4 : ¬ byteLen c > 1000000 := by omega
  refine ⟨mapInsert ⟨s⟩ ⟨c, [], now⟩ st, ?_, ?_⟩
  · simp [set_page, hsid, h4]
  · simp [page_for_session, hsid, mapLookup_mapInsert_self]

/-- Witness for C1 at a concrete input. -/
theorem setPage_then_getPage_witness :
    ∃ st', set_page "Q1" "abc" [] 0 = .ok st' ∧ page_for_session st' "abc" = .ok "Q1" :=
  setPage_then_getPage [] "abc" "Q1" 0 (by decide) (by decide) (by decide)

/-- C2: a successful `set_page` clears all previously recorded responses:
a subsequent `responses` call returns the empty mapping. -/
theorem setPage_clears_responses (st st' : Sessions) (s c : String) (now : Nat)
    (h : set_page c s st now = .ok st') :
    responses st' s = .ok [] := by
  obtain ⟨hb, sid, hsid, rfl⟩ := set_page_ok_inv h
  simp [responses, hsid, mapLookup_mapInsert_self]

/-- Witness for C2: a session with a recorded response, after `set_page`,
reports no responses. -/
theorem setPage_clears_responses_witness :
    responses [(⟨"abc"⟩, ⟨"Q2", [], 5⟩)] "abc" = .ok [] :=
  setPage_clears_responses [(⟨"abc"⟩, ⟨"Q1", [(⟨"u1"⟩, "41")], 0⟩)]
    [(⟨"abc"⟩, ⟨"Q2", [], 5⟩)] "abc" "Q2" 5 (by rfl)

/-- C3: for valid identifiers, `respond` on an absent session fails with
`SessionIDDoesNotExist` and the registry is unchanged: the session count is
the same and `page_for_session` still fails for that id. -/
theorem respond_absent_session (st : Sessions) (s u b : String) (sid : SessionID)
    (uid : UserID) (now : Nat)
    (hs : SessionID.from_string s = .ok sid)
    (hu : UserID.from_string u = .ok uid)
    (habs : mapLookup sid st = none) :
    respond b s u st now = .error .SessionIDDoesNotExist ∧
    applyOp st (.doRespond s u b now) = st ∧
    stats (applyOp st (.doRespond s u b now)) = stats st ∧
    page_for_session (applyOp st (.doRespond s u b now)) s = .error .SessionIDDoesNotExist := by
  have h1 : respond b s u st now = .error .SessionIDDoesNotExist := by
    simp [respond, hs, hu, habs]
  have h2 : applyOp st (.doRespond s u b now) = st := by
    simp [applyOp, h1]
  refine ⟨h1, h2, by rw [h2], ?_⟩
  rw [h2]
  simp [page_for_session, hs, habs]

/-- Witness for C3 at the empty registry. -/
theorem respond_absent_session_witness :
    respond "42" "abc" "u1" [] 7 = .error .SessionIDDoesNotExist ∧
    applyOp [] (.doRespond "abc" "u1" "42" 7) = [] ∧
    stats (applyOp [] (.doRespond "abc" "u1" "42" 7)) = stats [] ∧
    page_for_session (applyOp [] (.doRespond "abc" "u1" "42" 7)) "abc" =
      .error .SessionIDDoesNotExist :=
  respond_absent_session [] "abc" "u1" "42" ⟨"abc"⟩ ⟨"u1"⟩ 7 (by rfl) (by rfl) (by rfl)

/-- C4: on an existing session whose response keys are duplicate-free,
responding twice as the same user overwrites: the final mapping carries
exactly one entry for that user, holding the second body, and each
`respond` sets the session's `last_update` to its own timestamp. -/
theorem respond_overwrites (st : Sessions) (s u b1 b2 : String) (sid : SessionID)
    (uid : UserID) (sess : SessionState) (t1 t2 : Nat)
    (hs : SessionID.from_string s = .ok sid)
    (hu : UserID.from_string u = .ok uid)
    (hsess : mapLookup sid st = some sess)
    (hnd : (mapKeys sess.response_by_user).Nodup) :
    ∃ st1 st2 sess2,
      respond b1 s u st t1 = .ok st1 ∧
      respond b2 s u st1 t2 = .ok st2 ∧
      (∃ sess1, mapLookup sid st1 = some sess1 ∧ sess1.last_update = t1) ∧
      mapLookup sid st2 = some sess2 ∧ sess2.last_update = t2 ∧
      responses st2 s = .ok sess2.response_by_user ∧
      mapLookup uid sess2.response_by_user = some b2 ∧
      countKey uid sess2.response_by_user = 1 := by
  have hresp1 : respond b1 s u st t1 = .ok (mapInsert sid
      (SessionState.mk sess.page_content (mapInsert uid b1 sess.response_by_user) t1) st) := by
    simp [respond, hs, hu, hsess]
  have hlook1 : mapLookup sid (mapInsert sid
      (SessionState.mk sess.page_content (mapInsert uid b1 sess.response_by_user) t1) st) =
      some (SessionState.mk sess.page_content (mapInsert uid b1 sess.response_by_user) t1) :=
    mapLookup_mapInsert_self _ _ _
  have hresp2 : respond b2 s u (mapInsert sid
      (SessionState.mk sess.page_content (mapInsert uid b1 sess.response_by_user) t1) st) t2 =
      .ok (mapInsert sid
        (SessionState.mk sess.page_content (mapInsert uid b2 sess.response_by_user) t2)
        (mapInsert sid
          (SessionState.mk sess.page_content (mapInsert uid b1 sess.response_by_user) t1) st)) := by
    simp [respond, hs, hu, hlook1, mapInsert_mapInsert_self]
  refine ⟨_, _, _, hresp1, hresp2, ⟨_, hlook1, rfl⟩,
    mapLookup_mapInsert_self _ _ _, rfl, ?_, ?_, ?_⟩
  · simp [responses, hs, mapLookup_mapInsert_self]
  · exact mapLookup_mapInsert_self _ _ _
  · exact countKey_mapInsert_self _ _ hnd

/-- Witness for C4 at a concrete session. -/
theorem respond_overwrites_witness :
    ∃ st1 st2 sess2,
      respond "41" "abc" "u1" [(SessionID.mk "abc", SessionState.mk "Q1" [] 0)] 3 = .ok st1 ∧
      respond "42" "abc" "u1" st1 4 = .ok st2 ∧
      (∃ sess1, mapLookup (SessionID.mk "abc") st1 = some sess1 ∧ sess1.last_update = 3) ∧
      mapLookup (SessionID.mk "abc") st2 = some sess2 ∧ sess2.last_update = 4 ∧
      responses st2 "abc" = .ok sess2.response_by_user ∧
      mapLookup (UserID.mk "u1") sess2.response_by_user = some "42" ∧
      countKey (UserID.mk "u1") sess2.response_by_user = 1 :=
  respond_overwrites [(SessionID.mk "abc", SessionState.mk "Q1" [] 0)] "abc" "u1" "41" "42"
    (SessionID.mk "abc") (UserID.mk "u1") (SessionState.mk "Q1" [] 0) 3 4
    (by rfl) (by rfl) (by rfl) (by simp [mapKeys])

/-- C8: with a valid session id, `reset` always succeeds; it is the
identity when the session is absent, clears exactly the responses of the
addressed session when present (page content and `last_update` untouched),
leaves every other session alone, and is idempotent. -/
theorem resetResponses_spec (st : Sessions) (s : String) (sid : SessionID)
    (hs : SessionID.from_string s = .ok sid) :
    ∃ st', reset s st = .ok st' ∧
      (mapLookup sid st = none → st' = st) ∧
      (∀ sess, mapLookup sid st = some sess →
        mapLookup sid st' = some { sess with response_by_user := [] }) ∧
      (∀ k, k ≠ sid → mapLookup k st' = mapLookup k st) ∧
      reset s st' = .ok st' := by
  cases hlook : mapLookup sid st with
  | none =>
    refine ⟨st, ?_, fun _ => rfl, ?_, fun k hk => rfl, ?_⟩
    · simp [reset, hs, hlook]
    · intro sess hsess
      cases hsess
    · simp [reset, hs, hlook]
  | some sess =>
    refine ⟨mapInsert sid { sess with response_by_user := [] } st, ?_, ?_, ?_, ?_, ?_⟩
    · simp [reset, hs, hlook]
    · intro h
      cases h
    · intro sess1 h1
      cases h1
      exact mapLookup_mapInsert_self _ _ _
    · intro k hk
      exact mapLookup_mapInsert_ne _ _ hk
    · simp [reset, hs, mapLookup_mapInsert_self, mapInsert_mapInsert_self]

/-- Witness for C8 at a concrete session with a recorded response. -/
theorem resetResponses_spec_witness :
    ∃ st', reset "abc"
        [(SessionID.mk "abc", SessionState.mk "Q1" [(UserID.mk "u1", "41")] 2)] = .ok st' ∧
      (mapLookup (SessionID.mk "abc")
          [(SessionID.mk "abc", SessionState.mk "Q1" [(UserID.mk "u1", "41")] 2)] = none →
        st' = [(SessionID.mk "abc", SessionState.mk "Q1" [(UserID.mk "u1", "41")] 2)]) ∧
      (∀ sess, mapLookup (SessionID.mk "abc")
          [(SessionID.mk "abc", SessionState.mk "Q1" [(UserID.mk "u1", "41")] 2)] = some sess →
        mapLookup (SessionID.mk "abc") st' = some { sess with response_by_user := [] }) ∧
      (∀ k, k ≠ SessionID.mk "abc" →
        mapLookup k st' = mapLookup k
          [(SessionID.mk "abc", SessionState.mk "Q1" [(UserID.mk "u1", "41")] 2)]) ∧
      reset "abc" st' = .ok st' :=
  resetResponses_spec [(SessionID.mk "abc", SessionState.mk "Q1" [(UserID.mk "u1", "41")] 2)]
    "abc" (SessionID.mk "abc") (by rfl)

/-- C9: the read operations `page_for_session`, `responses` and `stats`
leave the registry exactly as it was: applying them as requests is the
identity on the state, every session's `last_update` is untouched, and a
later expiry sweep behaves as if the read had never happened. -/
theorem reads_do_not_modify (st : Sessions) (p : String) (now ttl : Nat) :
    applyOp st (.getPage p) = st ∧
    applyOp st (.getResponses p) = st ∧
    applyOp st .countSessions = st ∧
    (∀ sid, (mapLookup sid (applyOp st (.getPage p))).map SessionState.last_update =
      (mapLookup sid st).map SessionState.last_update) ∧
    expire_older_than (applyOp st (.getPage p)) now ttl = expire_older_than st now ttl :=
  ⟨rfl, rfl, rfl, fun _ => rfl, rfl⟩

/-! ### Filter lemmas for the expiry sweep -/

theorem mapKeys_filter_subset {κ α : Type} (f : κ × α → Bool) (l : List (κ × α)) :
    mapKeys (l.filter f) ⊆ mapKeys l := by
  intro x hx
  simp only [mapKeys, List.mem_map] at hx ⊢
  obtain ⟨p, hp, rfl⟩ := hx
  exact ⟨p, List.mem_of_mem_filter hp, rfl⟩

theorem mapLookup_filter {κ α : Type} [DecidableEq κ] (k : κ) (f : κ × α → Bool)
    {l : List (κ × α)} (h : (mapKeys l).Nodup) :
    mapLookup k (l.filter f) =
      (mapLookup k l).bind (fun v => if f (k, v) then some v else none) := by
  induction l with
  | nil => rfl
  | cons hd tl ih =>
    obtain ⟨k1, v⟩ := hd
    simp only [mapKeys, List.map_cons, List.nodup_cons] at h
    by_cases hk : k1 = k
    · subst hk
      have hnone2 : mapLookup k1 (tl.filter f) = none :=
        mapLookup_eq_none_of_not_mem_keys
          (fun hmem => h.1 (mapKeys_filter_subset f tl hmem))
      cases hf : f (k1, v) with
      | true => simp [List.filter_cons, hf, mapLookup]
      | false => simp [List.filter_cons, hf, mapLookup, hnone2]
    · cases hf : f (k1, v) with
      | true => simp [List.filter_cons, hf, mapLookup, hk, ih h.2]
      | false => simp [List.filter_cons, hf, mapLookup, hk, ih h.2]

theorem length_filter_add_length_filter_not {α : Type} (f : α → Bool) (l : List α) :
    (l.filter f).length + (l.filter fun a => ! f a).length = l.length := by
  induction l with
  | nil => rfl
  | cons a tl ih =>
    cases hf : f a <;> simp [List.filter_cons, hf, ← ih] <;> omega

/-- C7: with duplicate-free session keys, the expiry sweep removes exactly
the sessions with `last_update + ttl < now`: such a session is afterwards
absent (lookup, `page_for_session` and `responses` all fail), a session
with `last_update + ttl ≥ now` survives with unchanged state, the swept
registry holds exactly the surviving entries of the old one, and the
session count drops by exactly the number of expired sessions. -/
theorem expire_removes_exactly (st : Sessions) (now ttl : Nat) (s : String)
    (sid : SessionID) (sess : SessionState)
    (hnd : (mapKeys st).Nodup)
    (hs : SessionID.from_string s = .ok sid)
    (hmem : mapLookup sid st = some sess) :
    (sess.last_update + ttl < now →
      mapLookup sid (expire_older_than st now ttl) = none ∧
      page_for_session (expire_older_than st now ttl) s = .error .SessionIDDoesNotExist ∧
      responses (expire_older_than st now ttl) s = .error .SessionIDDoesNotExist) ∧
    (¬ sess.last_update + ttl < now →
      mapLookup sid (expire_older_than st now ttl) = some sess) ∧
    (∀ p ∈ expire_older_than st now ttl, p ∈ st ∧ ¬ p.2.last_update + ttl < now) ∧
    (∀ p ∈ st, ¬ p.2.last_update + ttl < now → p ∈ expire_older_than st now ttl) ∧
    stats (expire_older_than st now ttl) +
      (st.filter fun p => decide (p.2.last_update + ttl < now)).length = stats st := by
  have hbase : ∀ v : SessionState,
      (! decide (now > v.last_update + ttl)) = ! decide (v.last_update + ttl < now) :=
    fun v => rfl
  have hlk := mapLookup_filter sid
    (fun p : SessionID × SessionState => ! decide (now > p.2.last_update + ttl)) hnd
  rw [hmem] at hlk
  refine ⟨?_, ?_, ?_, ?_, ?_⟩
  · intro hold
    have hnone : mapLookup sid (expire_older_than st now ttl) = none := by
      rw [expire_older_than, hlk]
      simp [hold]
    exact ⟨hnone, by simp [page_for_session, hs, hnone], by simp [responses, hs, hnone]⟩
  · intro hnew
    rw [expire_older_than, hlk]
    simp [hnew]
  · intro p hp
    rw [expire_older_than, List.mem_filter] at hp
    refine ⟨hp.1, ?_⟩
    have := hp.2
    simp only [Bool.not_eq_true', decide_eq_false_iff_not, gt_iff_lt] at this
    exact this
  · intro p hp hnew
    rw [expire_older_than, List.mem_filter]
    exact ⟨hp, by simp [gt_iff_lt, hnew]⟩
  · have h1 := length_filter_add_length_filter_not
      (fun p : SessionID × SessionState => ! decide (now > p.2.last_update + ttl)) st
    have h2 : (st.filter fun p => ! ! decide (now > p.2.last_update + ttl)) =
        (st.filter fun p => decide (p.2.last_update + ttl < now)) := by
      apply List.filter_congr
      intro p _
      simp [Bool.not_not, gt_iff_lt]
    rw [h2] at h1
    exact h1

/-- Witness for C7: of two sessions, one expired and one fresh, the sweep
keeps exactly the fresh one. -/
theorem expire_removes_exactly_witness :
    ((SessionState.mk "Q1" [] 0).last_update + 10 < 50 →
      mapLookup (SessionID.mk "old") (expire_older_than
        [(SessionID.mk "old", SessionState.mk "Q1" [] 0),
         (SessionID.mk "new", SessionState.mk "Q2" [] 45)] 50 10) = none ∧
      page_for_session (expire_older_than
        [(SessionID.mk "old", SessionState.mk "Q1" [] 0),
         (SessionID.mk "new", SessionState.mk "Q2" [] 45)] 50 10) "old" =
        .error .SessionIDDoesNotExist ∧
      responses (expire_older_than
        [(SessionID.mk "old", SessionState.mk "Q1" [] 0),
         (SessionID.mk "new", SessionState.mk "Q2" [] 45)] 50 10) "old" =
        .error .SessionIDDoesNotExist) ∧
    (¬ (SessionState.mk "Q1" [] 0).last_update + 10 < 50 →
      mapLookup (SessionID.mk "old") (expire_older_than
        [(SessionID.mk "old", SessionState.mk "Q1" [] 0),
         (SessionID.mk "new", SessionState.mk "Q2" [] 45)] 50 10) =
        some (SessionState.mk "Q1" [] 0)) ∧
    (∀ p ∈ expire_older_than
        [(SessionID.mk "old", SessionState.mk "Q1" [] 0),
         (SessionID.mk "new", SessionState.mk "Q2" [] 45)] 50 10,
      p ∈ [(SessionID.mk "old", SessionState.mk "Q1" [] 0),
           (SessionID.mk "new", SessionState.mk "Q2" [] 45)] ∧
      ¬ p.2.last_update + 10 < 50) ∧
    (∀ p ∈ [(SessionID.mk "old", SessionState.mk "Q1" [] 0),
            (SessionID.mk "new", SessionState.mk "Q2" [] 45)],
      ¬ p.2.last_update + 10 < 50 → p ∈ expire_older_than
        [(SessionID.mk "old", SessionState.mk "Q1" [] 0),
         (SessionID.mk "new", SessionState.mk "Q2" [] 45)] 50 10) ∧
    stats (expire_older_than
      [(SessionID.mk "old", SessionState.mk "Q1" [] 0),
       (SessionID.mk "new", SessionState.mk "Q2" [] 45)] 50 10) +
      ([(SessionID.mk "old", SessionState.mk "Q1" [] 0),
        (SessionID.mk "new", SessionState.mk "Q2" [] 45)].filter
        fun p => decide (p.2.last_update + 10 < 50)).length =
      stats [(SessionID.mk "old", SessionState.mk "Q1" [] 0),
             (SessionID.mk "new", SessionState.mk "Q2" [] 45)] :=
  expire_removes_exactly
    [(SessionID.mk "old", SessionState.mk "Q1" [] 0),
     (SessionID.mk "new", SessionState.mk "Q2" [] 45)] 50 10 "old"
    (SessionID.mk "old") (SessionState.mk "Q1" [] 0)
    (by simp [mapKeys]) (by rfl) (by rfl)

/-! ### Oversized bodies (C5) -/

/-- A request body of 1,000,001 bytes. -/
def bigBody : String := String.mk (List.replicate 1000001 'a')

theorem bigBody_byteLen : byteLen bigBody = 1000001 := by
  have h := byteLen_mk_replicate 1000001 'a'
  have ha : ('a').utf8Size = 1 := by decide
  rw [bigBody, h, ha, Nat.mul_one]

/-- C5 counterexample: the `respond` handler performs no body-size check,
so a 1,000,001-byte response body is accepted on an existing session and
stored in the registry. -/
theorem respond_accepts_oversized_body :
    1000000 < byteLen bigBody ∧
    respond bigBody "abc" "u1" [(SessionID.mk "abc", SessionState.mk "Q1" [] 0)] 1 =
      .ok [(SessionID.mk "abc", SessionState.mk "Q1" [(UserID.mk "u1", bigBody)] 1)] := by
  constructor
  · rw [bigBody_byteLen]
    omega
  · rfl

/-- C5 amended: `set_page` rejects a body over 1,000,000 bytes with
`PageTooLarge` before touching the registry, leaving the state unchanged;
`respond` applies no body-size check of its own and succeeds on an
existing session with valid identifiers for a body of any size. -/
theorem setPage_rejects_oversized_body (st : Sessions) (s c u b : String)
    (sid : SessionID) (uid : UserID) (sess : SessionState) (now : Nat)
    (hc : 1000000 < byteLen c)
    (hs : SessionID.from_string s = .ok sid)
    (hu : UserID.from_string u = .ok uid)
    (hsess : mapLookup sid st = some sess) :
    set_page c s st now = .error .PageTooLarge ∧
    applyOp st (.setPage s c now) = st ∧
    ∃ st', respond b s u st now = .ok st' := by
  have h1 : set_page c s st now = .error .PageTooLarge := by
    simp [set_page, hc]
  refine ⟨h1, by simp [applyOp, h1],
    mapInsert sid (SessionState.mk sess.page_content
      (mapInsert uid b sess.response_by_user) now) st, ?_⟩
  simp [respond, hs, hu, hsess]

/-- Witness for the amended C5 at the 1,000,001-byte body. -/
theorem setPage_rejects_oversized_body_witness :
    set_page bigBody "abc" [(SessionID.mk "abc", SessionState.mk "Q1" [] 0)] 1 =
      .error .PageTooLarge ∧
    applyOp [(SessionID.mk "abc", SessionState.mk "Q1" [] 0)]
      (.setPage "abc" bigBody 1) = [(SessionID.mk "abc", SessionState.mk "Q1" [] 0)] ∧
    ∃ st', respond bigBody "abc" "u1"
      [(SessionID.mk "abc", SessionState.mk "Q1" [] 0)] 1 = .ok st' :=
  setPage_rejects_oversized_body [(SessionID.mk "abc", SessionState.mk "Q1" [] 0)]
    "abc" bigBody "u1" bigBody (SessionID.mk "abc") (UserID.mk "u1")
    (SessionState.mk "Q1" [] 0) 1 (by simp [bigBody_byteLen]) (by rfl) (by rfl) (by rfl)

/-! ### Identifier length in bytes versus characters (C6) -/

/-- A 100-character identifier whose UTF-8 byte length is 200. -/
def wideId : String := String.mk (List.replicate 100 'é')

theorem wideId_byteLen : byteLen wideId = 200 := by
  have h := byteLen_mk_replicate 100 'é'
  have ha : ('é').utf8Size = 2 := by decide
  rw [wideId, h, ha]

/-- C6 counterexample: a 100-character string need not be accepted — the
code measures UTF-8 bytes, so 100 two-byte characters are rejected as too
long by both identifier validators. -/
theorem hundred_char_id_rejected :
    wideId.length = 100 ∧
    SessionID.from_string wideId = .error .TooLongSessionID ∧
    UserID.from_string wideId = .error .TooLongUserID := by
  have hne : ¬ wideId = "" := by decide
  have hlen : byteLen wideId = 200 := wideId_byteLen
  refine ⟨by decide, ?_, ?_⟩ <;>
    simp [SessionID.from_string, UserID.from_string, hne, hlen]

/-- C6 amended: identifier length is measured in UTF-8 bytes.  The empty
string fails, any 101-character string fails (its byte length exceeds
100), and any non-empty string of at most 100 bytes — in particular any
100-character ASCII string — succeeds; every handler taking an identifier
rejects an invalid one with the corresponding error. -/
theorem identifier_validation (st : Sessions) (s t b u : String) (now : Nat)
    (h101 : s.length = 101)
    (ht1 : t ≠ "") (ht2 : byteLen t ≤ 100)
    (hb : byteLen b ≤ 1000000) :
    SessionID.from_string "" = .error .EmptySessionID ∧
    UserID.from_string "" = .error .EmptyUserID ∧
    SessionID.from_string s = .error .TooLongSessionID ∧
    UserID.from_string s = .error .TooLongUserID ∧
    SessionID.from_string t = .ok ⟨t⟩ ∧
    UserID.from_string t = .ok ⟨t⟩ ∧
    page_for_session st "" = .error .EmptySessionID ∧
    page_for_session st s = .error .TooLongSessionID ∧
    responses st "" = .error .EmptySessionID ∧
    responses st s = .error .TooLongSessionID ∧
    reset "" st = .error .EmptySessionID ∧
    reset s st = .error .TooLongSessionID ∧
    set_page b "" st now = .error .EmptySessionID ∧
    set_page b s st now = .error .TooLongSessionID ∧
    respond b "" u st now = .error .EmptySessionID ∧
    respond b s u st now = .error .TooLongSessionID ∧
    respond b t "" st now = .error .EmptyUserID ∧
    respond b t s st now = .error .TooLongUserID := by
  have hslen : byteLen s > 100 := by
    have := length_le_byteLen s
    omega
  have hsne : ¬ s = "" := by
    intro hempty
    rw [hempty] at h101
    simp [String.length] at h101
  have hserr : SessionID.from_string s = .error .TooLongSessionID := by
    simp [SessionID.from_string, hsne, hslen]
  have huerr : UserID.from_string s = .error .TooLongUserID := by
    simp [UserID.from_string, hsne, hslen]
  have hsemp : SessionID.from_string "" = .error .EmptySessionID := rfl
  have huemp : UserID.from_string "" = .error .EmptyUserID := rfl
  have htok := sessionID_from_string_eq_ok ht1 ht2
  have htok' := userID_from_string_eq_ok ht1 ht2
  have hbneg : ¬ byteLen b > 1000000 := by omega
  refine ⟨hsemp, huemp, hserr, huerr, htok, htok', ?_, ?_, ?_, ?_, ?_, ?_, ?_, ?_,
    ?_, ?_, ?_, ?_⟩ <;>
    simp [page_for_session, responses, reset, set_page, respond,
      hsemp, huemp, hserr, huerr, htok, hbneg]

/-- Witness for the amended C6 at a 101-character and a 100-character
ASCII string. -/
theorem identifier_validation_witness :
    SessionID.from_string "" = .error .EmptySessionID ∧
    UserID.from_string "" = .error .EmptyUserID ∧
    SessionID.from_string (String.mk (List.replicate 101 'a')) = .error .TooLongSessionID ∧
    UserID.from_string (String.mk (List.replicate 101 'a')) = .error .TooLongUserID ∧
    SessionID.from_string (String.mk (List.replicate 100 'a')) =
      .ok ⟨String.mk (List.replicate 100 'a')⟩ ∧
    UserID.from_string (String.mk (List.replicate 100 'a')) =
      .ok ⟨String.mk (List.replicate 100 'a')⟩ ∧
    page_for_session [] "" = .error .EmptySessionID ∧
    page_for_session [] (String.mk (List.replicate 101 'a')) = .error .TooLongSessionID ∧
    responses [] "" = .error .EmptySessionID ∧
    responses [] (String.mk (List.replicate 101 'a')) = .error .TooLongSessionID ∧
    reset "" [] = .error .EmptySessionID ∧
    reset (String.mk (List.replicate 101 'a')) [] = .error .TooLongSessionID ∧
    set_page "B" "" [] 0 = .error .EmptySessionID ∧
    set_page "B" (String.mk (List.replicate 101 'a')) [] 0 = .error .TooLongSessionID ∧
    respond "B" "" "u1" [] 0 = .error .EmptySessionID ∧
    respond "B" (String.mk (List.replicate 101 'a')) "u1" [] 0 = .error .TooLongSessionID ∧
    respond "B" (String.mk (List.replicate 100 'a')) "" [] 0 = .error .EmptyUserID ∧
    respond "B" (String.mk (List.replicate 100 'a'))
      (String.mk (List.replicate 101 'a')) [] 0 = .error .TooLongUserID :=
  identifier_validation [] (String.mk (List.replicate 101 'a'))
    (String.mk (List.replicate 100 'a')) "B" "u1" 0
    (by decide) (by decide) (by decide) (by decide)

/-! ### Reachability invariant (C10) -/

theorem sessionID_from_string_ok_inv {s : String} {sid : SessionID}
    (h : SessionID.from_string s = .ok sid) :
    sid = ⟨s⟩ ∧ s ≠ "" ∧ byteLen s ≤ 100 := by
  simp only [SessionID.from_string] at h
  split at h
  · cases h
  · split at h
    · cases h
    · next h2 =>
      cases h
      exact ⟨rfl, by assumption, by omega⟩

theorem userID_from_string_ok_inv {s : String} {uid : UserID}
    (h : UserID.from_string s = .ok uid) :
    uid = ⟨s⟩ ∧ s ≠ "" ∧ byteLen s ≤ 100 := by
  simp only [UserID.from_string] at h
  split at h
  · cases h
  · split at h
    · cases h
    · next h2 =>
      cases h
      exact ⟨rfl, by assumption, by omega⟩

theorem respond_ok_inv {b s u : String} {st st' : Sessions} {now : Nat}
    (h : respond b s u st now = .ok st') :
    ∃ sid uid sess, SessionID.from_string s = .ok sid ∧ UserID.from_string u = .ok uid ∧
      mapLookup sid st = some sess ∧
      st' = mapInsert sid (SessionState.mk sess.page_content
        (mapInsert uid b sess.response_by_user) now) st := by
  simp only [respond] at h
  split at h
  · cases h
  · next sid hsid =>
    split at h
    · cases h
    · next uid huid =>
      split at h
      · cases h
      · next sess hsess =>
        cases h
        exact ⟨sid, uid, sess, hsid, huid, hsess, rfl⟩

theorem reset_ok_inv {s : String} {st st' : Sessions}
    (h : reset s st = .ok st') :
    st' = st ∨ ∃ sid sess, SessionID.from_string s = .ok sid ∧
      mapLookup sid st = some sess ∧
      st' = mapInsert sid (SessionState.mk sess.page_content [] sess.last_update) st := by
  simp only [reset] at h
  split at h
  · cases h
  · next sid hsid =>
    split at h
    · cases h
      exact .inl rfl
    · next sess hsess =>
      cases h
      exact .inr ⟨sid, sess, hsid, hsess, rfl⟩

theorem mem_of_mapLookup_some {κ α : Type} [DecidableEq κ] {k : κ} {v : α}
    {l : List (κ × α)} (h : mapLookup k l = some v) : (k, v) ∈ l := by
  induction l with
  | nil => cases h
  | cons hd tl ih =>
    obtain ⟨k1, w⟩ := hd
    simp only [mapLookup] at h
    by_cases hk : k1 = k
    · rw [if_pos hk] at h
      subst hk
      cases h
      exact List.mem_cons_self _ _
    · rw [if_neg hk] at h
      exact List.mem_cons_of_mem _ (ih h)

theorem validState_mapInsert {st : Sessions} {sid : SessionID} {sess : SessionState}
    (h : ValidState st) (h1 : validIdStr sid.val)
    (h2 : byteLen sess.page_content ≤ 1000000)
    (h3 : ∀ q ∈ sess.response_by_user, validIdStr q.1.val) :
    ValidState (mapInsert sid sess st) := by
  intro p hp
  rcases mem_mapInsert hp with rfl | hp'
  · exact ⟨h1, h2, h3⟩
  · exact h p hp'

theorem validState_applyOp {st : Sessions} (h : ValidState st) (op : Op) :
    ValidState (applyOp st op) := by
  cases op with
  | setPage path body now =>
    cases hok : set_page body path st now with
    | error e => simpa [applyOp, hok] using h
    | ok st' =>
      simp only [applyOp, hok]
      obtain ⟨hb, sid, hsid, rfl⟩ := set_page_ok_inv hok
      obtain ⟨rfl, hne, hlen⟩ := sessionID_from_string_ok_inv hsid
      exact validState_mapInsert h ⟨hne, hlen⟩ hb (by intro q hq; cases hq)
  | doRespond path user body now =>
    cases hok : respond body path user st now with
    | error e => simpa [applyOp, hok] using h
    | ok st' =>
      simp only [applyOp, hok]
      obtain ⟨sid, uid, sess, hsid, huid, hsess, rfl⟩ := respond_ok_inv hok
      obtain ⟨rfl, hne, hlen⟩ := sessionID_from_string_ok_inv hsid
      obtain ⟨rfl, hune, hulen⟩ := userID_from_string_ok_inv huid
      obtain ⟨hv1, hv2, hv3⟩ := h _ (mem_of_mapLookup_some hsess)
      refine validState_mapInsert h ⟨hne, hlen⟩ hv2 ?_
      intro q hq
      rcases mem_mapInsert hq with rfl | hq'
      · exact ⟨hune, hulen⟩
      · exact hv3 q hq'
  | resetResponses path =>
    cases hok : reset path st with
    | error e => simpa [applyOp, hok] using h
    | ok st' =>
      simp only [applyOp, hok]
      rcases reset_ok_inv hok with rfl | ⟨sid, sess, hsid, hsess, rfl⟩
      · exact h
      · obtain ⟨rfl, hne, hlen⟩ := sessionID_from_string_ok_inv hsid
        obtain ⟨hv1, hv2, hv3⟩ := h _ (mem_of_mapLookup_some hsess)
        exact validState_mapInsert h ⟨hne, hlen⟩ hv2 (by intro q hq; cases hq)
  | getPage path => exact h
  | getResponses path => exact h
  | countSessions => exact h
  | expire now ttl =>
    intro p hp
    exact h p (List.mem_of_mem_filter hp)

/-- C10: in every registry state reachable from the empty registry by any
sequence of requests, every session key and every user key is a non-empty
string of at most 100 bytes, and every page content is at most 1,000,000
bytes. -/
theorem reachable_valid {st : Sessions} (h : Reachable st) : ValidState st := by
  induction h with
  | empty => intro p hp; cases hp
  | step op hst ih => exact validState_applyOp ih op

/-- Witness for C10: the invariant holds of the state reached by one
`set_page` request. -/
theorem reachable_valid_witness :
    ValidState (applyOp [] (Op.setPage "abc" "Q1" 0)) :=
  reachable_valid (Reachable.step (Op.setPage "abc" "Q1" 0) Reachable.empty)

end PollAudience
